import Mathlib

/-!
Verification of the signed gossip transport of acki-nacki-igniter.

Byte buffers are modelled as `List Nat` (each element an octet value; no claim
below depends on arithmetic overflow of a byte). The inner protocol message
type (chitchat ChitchatMessage) and the socket address type are abstracted
behind a `Codec` structure mirroring the chitchat Serializable and
Deserializable traits, since their implementations live in the chitchat crate
and are not part of the igniter sources. The ed25519 primitives from
ed25519_dalek are abstracted behind an `Ed25519` structure that records the
guarantees the library documents: public keys serialize to exactly 32 bytes,
signatures to exactly 64 bytes, and a key parsed back from its own bytes is
the same key.
-/

namespace Igniter

/-- Byte codec for a serializable type, after the chitchat Serializable and
Deserializable traits: `ser` produces the byte encoding, `serLen` reports the
encoded length, and `deser` consumes a prefix of a buffer returning the value
together with the remaining bytes (mirroring deserialize over a mutable
slice), or fails. -/
structure Codec (T : Type) where
  ser : T → List Nat
  serLen : T → Nat
  deser : List Nat → Option (T × List Nat)

/-- Ed25519 primitives of ed25519_dalek, with the laws the library guarantees:
`keyBytes` is the 32-byte encoding of a verifying key, `keyFromBytes` parses
an encoding (it can fail on non-canonical bytes), `verify` checks a signature
over a message under a key, `sign` produces the 64-byte signature of a message
under a signing key, and `verifyingKey` is the public counterpart of a signing
key. -/
structure Ed25519 (K SK : Type) where
  keyBytes : K → List Nat
  keyFromBytes : List Nat → Option K
  verify : K → List Nat → List Nat → Bool
  sign : SK → List Nat → List Nat
  verifyingKey : SK → K
  keyBytes_length : ∀ k, (keyBytes k).length = 32
  keyFromBytes_keyBytes : ∀ k, keyFromBytes (keyBytes k) = some k
  sign_length : ∀ sk m, (sign sk m).length = 64

/-- PROTOCOL_VERSION from transport/signed_udp.rs (and signed_message.rs). -/
def PROTOCOL_VERSION : Nat := 0

/-- SIGNATURE_LENGTH of ed25519_dalek. -/
def SIGNATURE_LENGTH : Nat := 64

/-- PUBLIC_KEY_LENGTH of ed25519_dalek. -/
def PUBLIC_KEY_LENGTH : Nat := 32

/-- SIGNED_MESSAGE_HEADER_LENGTH from transport/signed_udp.rs: one protocol
version byte, a 64-byte signature and a 32-byte public key. -/
def SIGNED_MESSAGE_HEADER_LENGTH : Nat := 1 + SIGNATURE_LENGTH + PUBLIC_KEY_LENGTH

/-- MAX_UDP_DATAGRAM_PAYLOAD_SIZE from transport/signed_udp.rs. -/
def MAX_UDP_DATAGRAM_PAYLOAD_SIZE : Nat := 65507

/-- Rust slice split_first_chunk for a chunk of n bytes: returns the first n
bytes and the rest, or fails when the buffer is shorter than n. -/
def splitFirstChunk (n : Nat) (buf : List Nat) : Option (List Nat × List Nat) :=
  if n ≤ buf.length then some (buf.take n, buf.drop n) else none

/-- UdpSignedTransport from transport/signed_udp.rs: holds the configured
pubkeys allow-list and the signing key. -/
structure UdpSignedTransport (K SK : Type) where
  pubkeys : List K
  signing_key : SK

/-- UdpSignedSocket from transport/signed_udp.rs: the socket state relevant to
the claims is only the signing key (the source also holds the OS socket and
reusable buffers). Note the socket has no pubkeys field. -/
structure UdpSignedSocket (SK : Type) where
  signing_key : SK

/-- Transport::open for UdpSignedTransport: builds the socket from the bind
address and the signing key alone; the pubkeys list is not passed on. -/
def UdpSignedTransport.open_socket {K SK : Type} (t : UdpSignedTransport K SK) :
    UdpSignedSocket SK :=
  { signing_key := t.signing_key }

/-- UdpSignedSocket::receive_verified_one from transport/signed_udp.rs,
applied to one received datagram `data` arriving from `from_addr`:
reject when the datagram is shorter than the signed header; split off the
protocol version byte and reject on mismatch; split off the 64-byte signature
and the 32-byte public key; parse the key; verify the signature over the
remaining message bytes; deserialize the message. The whitelist check against
the configured pubkeys is commented out in the source and therefore absent
here. -/
def receive_verified_one {K SK T A : Type} (E : Ed25519 K SK) (C : Codec T)
    (from_addr : A) (data : List Nat) : Option (A × T) :=
  if data.length < SIGNED_MESSAGE_HEADER_LENGTH then none
  else
    match data with
    | [] => none
    | protocol_version :: buf =>
      if protocol_version ≠ PROTOCOL_VERSION then none
      else
        match splitFirstChunk SIGNATURE_LENGTH buf with
        | none => none
        | some (signature_buf, buf1) =>
          match splitFirstChunk PUBLIC_KEY_LENGTH buf1 with
          | none => none
          | some (pubkey_buf, msg_buf) =>
            match E.keyFromBytes pubkey_buf with
            | none => none
            | some verifier =>
              if E.verify verifier msg_buf signature_buf then
                match C.deser msg_buf with
                | none => none
                | some (message, _) => some (from_addr, message)
              else none

/-- QuicSocket from transport/signed_quic.rs: holds the pubkey set and the
signing key (the source also holds the QUIC endpoints and buffers). -/
structure QuicSocket (K SK : Type) where
  pubkey_set : List K
  signing_key : SK

/-- QuicSocket::receive_verified_one from transport/signed_quic.rs, applied to
the bytes read from one accepted unidirectional stream: the same checks as
the UDP variant (header length, protocol version, key parse, signature
verification, message decode). The whitelist check against `pubkey_set` is
commented out in the source and therefore absent here. -/
def QuicSocket.receive_verified_one {K SK T A : Type} (E : Ed25519 K SK) (C : Codec T)
    (s : QuicSocket K SK) (from_addr : A) (data : List Nat) : Option (A × T) :=
  if data.length < SIGNED_MESSAGE_HEADER_LENGTH then none
  else
    match data with
    | [] => none
    | protocol_version :: buf =>
      if protocol_version ≠ PROTOCOL_VERSION then none
      else
        match splitFirstChunk SIGNATURE_LENGTH buf with
        | none => none
        | some (signature_buf, buf1) =>
          match splitFirstChunk PUBLIC_KEY_LENGTH buf1 with
          | none => none
          | some (pubkey_buf, msg_buf) =>
            match E.keyFromBytes pubkey_buf with
            | none => none
            | some verifier =>
              if E.verify verifier msg_buf signature_buf then
                match C.deser msg_buf with
                | none => none
                | some (message, _) => some (from_addr, message)
              else none

/-- UdpSignedSocket::send from transport/signed_udp.rs: bail with an error
when the serialized message exceeds the datagram budget; otherwise build the
single outgoing datagram as protocol version byte, signature over the
serialized message bytes, the public key of the signer, then the message
bytes, and hand it to send_bytes. The returned buffer is the one datagram
emitted. -/
def UdpSignedSocket.send {K SK T : Type} (E : Ed25519 K SK) (C : Codec T)
    (s : UdpSignedSocket SK) (message : T) : Except String (List Nat) :=
  if C.serLen message > MAX_UDP_DATAGRAM_PAYLOAD_SIZE - SIGNED_MESSAGE_HEADER_LENGTH then
    Except.error "message is too long"
  else
    let message_buf := C.ser message
    let signature := E.sign s.signing_key message_buf
    Except.ok ((([PROTOCOL_VERSION] ++ signature)
      ++ E.keyBytes (E.verifyingKey s.signing_key)) ++ message_buf)

/-- UdpSignedSocket::recv from transport/signed_udp.rs, run over the sequence
of datagrams arriving on the socket: loop over receive_verified_one, return
the first successful result, log and skip every failure. The loop in the
source has no error exit, so the model returns the first accepted datagram or
nothing at all when no datagram is ever accepted. -/
def UdpSignedSocket.recv {K SK T A : Type} (E : Ed25519 K SK) (C : Codec T)
    (datagrams : List (A × List Nat)) : Option (A × T) :=
  match datagrams with
  | [] => none
  | (from_addr, data) :: rest =>
    match receive_verified_one E C from_addr data with
    | some result => some result
    | none => UdpSignedSocket.recv E C rest

/-- SignedMessage from transport/signed_message.rs: a protocol version byte,
an ed25519 signature (always 64 bytes in the source type), a verifying key,
and an inner message. -/
structure SignedMessage (K T : Type) where
  protocol_version : Nat
  signature : List Nat
  pubkey : K
  message : T

/-- Serializable::serialize for SignedMessage from transport/signed_message.rs:
append the stored protocol version byte, the stored signature bytes, the
stored public key bytes, then the serialized inner message. The returned list
is exactly the bytes appended to the buffer. -/
def SignedMessage.serialize {K SK T : Type} (E : Ed25519 K SK) (C : Codec T)
    (sm : SignedMessage K T) : List Nat :=
  (([sm.protocol_version] ++ sm.signature) ++ E.keyBytes sm.pubkey) ++ C.ser sm.message

/-- Serializable::serialized_len for SignedMessage from
transport/signed_message.rs: one byte for the protocol version, plus
SIGNATURE_LENGTH, plus PUBLIC_KEY_LENGTH, plus the inner serialized length. -/
def SignedMessage.serialized_len {K T : Type} (C : Codec T)
    (sm : SignedMessage K T) : Nat :=
  1 + SIGNATURE_LENGTH + PUBLIC_KEY_LENGTH + C.serLen sm.message

/-- Deserializable::deserialize for SignedMessage from
transport/signed_message.rs: read one protocol version byte, split a 64-byte
signature chunk, split a 32-byte pubkey chunk, parse the key (which can fail),
deserialize the inner message from the remainder. Leftover bytes after the
inner message are not rejected, matching the source. -/
def SignedMessage.deserialize {K SK T : Type} (E : Ed25519 K SK) (C : Codec T)
    (buf : List Nat) : Option (SignedMessage K T) :=
  match buf with
  | [] => none
  | protocol_version :: buf0 =>
    match splitFirstChunk SIGNATURE_LENGTH buf0 with
    | none => none
    | some (signature_buf, buf1) =>
      match splitFirstChunk PUBLIC_KEY_LENGTH buf1 with
      | none => none
      | some (pubkey_buf, buf2) =>
        match E.keyFromBytes pubkey_buf with
        | none => none
        | some pubkey =>
          match C.deser buf2 with
          | none => none
          | some (message, _) =>
            some { protocol_version := protocol_version, signature := signature_buf,
                   pubkey := pubkey, message := message }

/-- handle_send from transport/quic/outgoing.rs: the payload written to the
one unidirectional stream opened for a message is the serialized sender
socket address followed by the serialized message. -/
def handle_send {A T : Type} (CA : Codec A) (C : Codec T)
    (from_addr : A) (message : T) : List Nat :=
  CA.ser from_addr ++ C.ser message

/-- handle_incoming_session from transport/quic/incoming.rs, applied to the
transport-observed remote address of the session and the bytes read from the
accepted unidirectional stream: deserialize the real sender address from the
payload, then the message, and yield the pair with the decoded address. The
observed remote address is used only for logging in the source. -/
def handle_incoming_session {A T : Type} (CA : Codec A) (C : Codec T)
    (from_addr : A) (uni_buf : List Nat) : Option (A × T) :=
  match CA.deser uni_buf with
  | none => none
  | some (real_from_addr, buf) =>
    match C.deser buf with
    | none => none
    | some (message, _) => some (real_from_addr, message)

/-- One iteration of the outgoing loop in transport/quic/outgoing.rs run: a
message whose destination equals the configured public address is discarded
(the loop continues before creating any connection); otherwise a connection to
the destination is created and handle_send writes the stream payload. The
result is the destination together with the bytes written, or nothing. -/
def outgoing_step {A T : Type} [DecidableEq A] (CA : Codec A) (C : Codec T)
    (public_addr : A) (out : A × T) : Option (A × List Nat) :=
  if out.1 = public_addr then none
  else some (out.1, handle_send CA C public_addr out.2)

/-- The outgoing loop of transport/quic/outgoing.rs run over a queue of
(destination, message) pairs: the list of (destination, stream payload)
transmissions actually performed. -/
def outgoing_run {A T : Type} [DecidableEq A] (CA : Codec A) (C : Codec T)
    (public_addr : A) (queue : List (A × T)) : List (A × List Nat) :=
  queue.filterMap (outgoing_step CA C public_addr)

/-- ChitchatId as constructed in gossip.rs run. -/
structure ChitchatId (A : Type) where
  node_id : String
  generation_id : Nat
  gossip_advertise_addr : A

/-- Node identity construction in gossip.rs run: ChitchatId::new with the
generated server id, the number of whole seconds since the Unix epoch at the
moment run executes, and the advertise address. -/
def gossip_run_chitchat_id {A : Type} (node_id : String) (now_unix_secs : Nat)
    (gossip_advertise_addr : A) : ChitchatId A :=
  { node_id := node_id, generation_id := now_unix_secs,
    gossip_advertise_addr := gossip_advertise_addr }

/-- Concrete codec over Nat used to instantiate witnesses: one byte per value. -/
def natCodec : Codec Nat where
  ser n := [n]
  serLen _ := 1
  deser buf :=
    match buf with
    | [] => none
    | b :: rest => some (b, rest)

/-- The all-zero 32-byte key encoding of the trivial ed25519 instance. -/
def zeroKeyBytes : List Nat := List.replicate 32 0

/-- Concrete trivial ed25519 instance used to instantiate witnesses: a single
key encoded as 32 zero bytes, signatures are 64 zero bytes, verification
always succeeds. It satisfies the three laws. -/
def trivEd : Ed25519 Unit Unit where
  keyBytes _ := zeroKeyBytes
  keyFromBytes bs := if bs = zeroKeyBytes then some () else none
  verify _ _ _ := true
  sign _ _ := List.replicate 64 0
  verifyingKey _ := ()
  keyBytes_length _ := by simp [zeroKeyBytes]
  keyFromBytes_keyBytes _ := by simp
  sign_length _ _ := by simp

/-- Concrete accepted datagram used by the C1 witness: version byte 0, 64 zero
signature bytes, the zero key bytes, then the one-byte message 5. -/
def wDatagram : List Nat :=
  PROTOCOL_VERSION :: (List.replicate 64 0 ++ (zeroKeyBytes ++ [5]))

/-- C1: the signed UDP socket yields a message from a received datagram only
if the datagram is at least 97 bytes long (1 version byte + 64 signature bytes
+ 32 public key bytes), its first byte equals protocol version 0, and the
ed25519 signature carried in bytes 1..65 verifies under the public key carried
in bytes 65..97 over the remaining message bytes; a datagram failing any of
these checks is never yielded. -/
theorem C1_receive_verified_only_if {K SK T A : Type} (E : Ed25519 K SK) (C : Codec T)
    (a : A) (data : List Nat) (r : A × T)
    (h : receive_verified_one E C a data = some r) :
    SIGNED_MESSAGE_HEADER_LENGTH ≤ data.length ∧
    data.head? = some PROTOCOL_VERSION ∧
    ∃ vk, E.keyFromBytes ((data.drop 65).take 32) = some vk ∧
      E.verify vk (data.drop 97) ((data.drop 1).take 64) = true := by
  unfold receive_verified_one at h
  split at h
  next => exact absurd h (by simp)
  next hlt =>
    split at h
    next => exact absurd h (by simp)
    next protocol_version buf =>
      split at h
      next => exact absurd h (by simp)
      next hpv =>
        split at h
        next => exact absurd h (by simp)
        next signature_buf buf1 hchunk1 =>
          split at h
          next => exact absurd h (by simp)
          next pubkey_buf msg_buf hchunk2 =>
            split at h
            next => exact absurd h (by simp)
            next verifier hkey =>
              split at h
              next hverify =>
                rw [splitFirstChunk] at hchunk1 hchunk2
                split at hchunk1
                next hle1 =>
                  simp only [Option.some.injEq, Prod.mk.injEq] at hchunk1
                  obtain ⟨rfl, rfl⟩ := hchunk1
                  split at hchunk2
                  next hle2 =>
                    simp only [Option.some.injEq, Prod.mk.injEq] at hchunk2
                    obtain ⟨rfl, rfl⟩ := hchunk2
                    simp only [ne_eq, Decidable.not_not] at hpv
                    subst hpv
                    refine ⟨?_, ?_, verifier, ?_, ?_⟩
                    · simpa using Nat.le_of_not_lt hlt
                    · simp
                    · simpa [SIGNATURE_LENGTH, PUBLIC_KEY_LENGTH,
                        List.drop_drop] using hkey
                    · simpa [SIGNATURE_LENGTH, PUBLIC_KEY_LENGTH,
                        List.drop_drop] using hverify
                  next => exact absurd hchunk2 (by simp)
                next => exact absurd hchunk1 (by simp)
              next => exact absurd h (by simp)

/-- Witness for C1 at a concrete accepted datagram. -/
theorem C1_witness :
    SIGNED_MESSAGE_HEADER_LENGTH ≤ wDatagram.length ∧
    wDatagram.head? = some PROTOCOL_VERSION ∧
    ∃ vk, trivEd.keyFromBytes ((wDatagram.drop 65).take 32) = some vk ∧
      trivEd.verify vk (wDatagram.drop 97) ((wDatagram.drop 1).take 64) = true :=
  C1_receive_verified_only_if trivEd natCodec (0 : Nat) wDatagram ((0 : Nat), (5 : Nat))
    (by rfl)

/-- C2: acceptance of a received datagram does not depend on the configured
pubkeys allow-list. Two QUIC sockets differing only in their pubkey set accept
and yield exactly the same datagrams, and the UDP socket produced by
Transport::open is identical for two transports differing only in their
pubkeys list (the socket does not even carry the list), so its recv behaviour
on any datagram sequence coincides as well. The allow-list check is commented
out in both sources. -/
theorem C2_allowlist_independence {K SK T A : Type} (E : Ed25519 K SK) (C : Codec T)
    (ps1 ps2 : List K) (sk : SK) (a : A) (data : List Nat)
    (datagrams : List (A × List Nat)) :
    (QuicSocket.receive_verified_one E C ⟨ps1, sk⟩ a data
      = (QuicSocket.receive_verified_one E C ⟨ps2, sk⟩ a data : Option (A × T))) ∧
    (UdpSignedTransport.open_socket ⟨ps1, sk⟩ = UdpSignedTransport.open_socket ⟨ps2, sk⟩) ∧
    (UdpSignedSocket.recv E C datagrams
      = (UdpSignedSocket.recv E C datagrams : Option (A × T))) := by
  exact ⟨rfl, rfl, rfl⟩

/-- C3 counterexample: the claim says every serialization of a SignedMessage
begins with the protocol version byte 0x00; but serialize writes the stored
protocol_version field, so a SignedMessage whose protocol_version is 1
serializes to a buffer whose first byte is 1, not 0. -/
theorem C3_counterexample :
    (SignedMessage.serialize trivEd natCodec
      { protocol_version := 1, signature := List.replicate 64 0,
        pubkey := (), message := (5 : Nat) }).head? ≠ some PROTOCOL_VERSION := by
  decide

/-- C3 amended: every byte sequence emitted by the signed UDP transport send
is exactly the concatenation of the protocol version byte 0x00, the 64-byte
signature over the serialized message bytes, the public key of the signer,
and the message bytes, in that order; and every serialization of a
SignedMessage is the concatenation of its stored protocol_version byte (0x00
only when the field is 0), its stored signature bytes, its stored public key
bytes, and the serialized inner message, in that order. -/
theorem C3_frame_layout {K SK T : Type} (E : Ed25519 K SK) (C : Codec T)
    (s : UdpSignedSocket SK) (m : T) (out : List Nat)
    (h : UdpSignedSocket.send E C s m = Except.ok out) :
    (out = [PROTOCOL_VERSION] ++ E.sign s.signing_key (C.ser m)
        ++ E.keyBytes (E.verifyingKey s.signing_key) ++ C.ser m) ∧
    ∀ (sm : SignedMessage K T),
      SignedMessage.serialize E C sm
        = [sm.protocol_version] ++ sm.signature ++ E.keyBytes sm.pubkey ++ C.ser sm.message := by
  constructor
  · unfold UdpSignedSocket.send at h
    split at h
    next => exact absurd h (by simp)
    next =>
      simp only [Except.ok.injEq] at h
      simp [← h, List.append_assoc]
  · intro sm
    simp [SignedMessage.serialize, List.append_assoc]

/-- Witness for C3 amended at a concrete message accepted by send. -/
theorem C3_frame_witness :
    ((([PROTOCOL_VERSION] ++ List.replicate 64 0) ++ zeroKeyBytes) ++ [5]
      = [PROTOCOL_VERSION] ++ trivEd.sign () (natCodec.ser 5)
        ++ trivEd.keyBytes (trivEd.verifyingKey ()) ++ natCodec.ser 5) ∧
    ∀ (sm : SignedMessage Unit Nat),
      SignedMessage.serialize trivEd natCodec sm
        = [sm.protocol_version] ++ sm.signature ++ trivEd.keyBytes sm.pubkey
          ++ natCodec.ser sm.message :=
  C3_frame_layout trivEd natCodec ⟨()⟩ 5
    ((([PROTOCOL_VERSION] ++ List.replicate 64 0) ++ zeroKeyBytes) ++ [5]) (by rfl)

/-- Helper: splitting a chunk of exactly the length of the first part of an
appended buffer yields the two parts. -/
theorem splitFirstChunk_append (n : Nat) (l1 l2 : List Nat) (h : l1.length = n) :
    splitFirstChunk n (l1 ++ l2) = some (l1, l2) := by
  rw [splitFirstChunk, if_pos (by simp [← h])]
  rw [List.take_left' h, List.drop_left' h]

/-- C4: for every message given to the signed UDP socket send, if the
serialized length exceeds 65507 - 97 bytes then send returns an error and
emits nothing; otherwise it emits exactly one datagram of total length 97 plus
the message bytes, which is at most 65507, provided the message serialized
length reported by serialized_len matches the bytes produced by serialize. -/
theorem C4_mtu_safety {K SK T : Type} (E : Ed25519 K SK) (C : Codec T)
    (s : UdpSignedSocket SK) (m : T)
    (hlen : C.serLen m = (C.ser m).length) :
    (C.serLen m > MAX_UDP_DATAGRAM_PAYLOAD_SIZE - SIGNED_MESSAGE_HEADER_LENGTH →
      ∃ e, UdpSignedSocket.send E C s m = Except.error e) ∧
    (C.serLen m ≤ MAX_UDP_DATAGRAM_PAYLOAD_SIZE - SIGNED_MESSAGE_HEADER_LENGTH →
      ∃ out, UdpSignedSocket.send E C s m = Except.ok out ∧
        out.length = SIGNED_MESSAGE_HEADER_LENGTH + (C.ser m).length ∧
        out.length ≤ MAX_UDP_DATAGRAM_PAYLOAD_SIZE) := by
  constructor
  · intro hgt
    refine ⟨"message is too long", ?_⟩
    unfold UdpSignedSocket.send
    rw [if_pos hgt]
  · intro hle
    refine ⟨(([PROTOCOL_VERSION] ++ E.sign s.signing_key (C.ser m))
      ++ E.keyBytes (E.verifyingKey s.signing_key)) ++ C.ser m, ?_, ?_, ?_⟩
    · unfold UdpSignedSocket.send
      rw [if_neg (Nat.not_lt.mpr hle)]
    · simp only [List.length_append, List.length_cons, List.length_nil,
        E.sign_length, E.keyBytes_length, SIGNED_MESSAGE_HEADER_LENGTH,
        SIGNATURE_LENGTH, PUBLIC_KEY_LENGTH]
    · simp only [List.length_append, List.length_cons, List.length_nil,
        E.sign_length, E.keyBytes_length]
      have : (C.ser m).length ≤ MAX_UDP_DATAGRAM_PAYLOAD_SIZE - SIGNED_MESSAGE_HEADER_LENGTH := by
        rw [← hlen]; exact hle
      simp only [MAX_UDP_DATAGRAM_PAYLOAD_SIZE, SIGNED_MESSAGE_HEADER_LENGTH,
        SIGNATURE_LENGTH, PUBLIC_KEY_LENGTH] at this ⊢
      omega

/-- Witness for C4 at a concrete small message. -/
theorem C4_witness :
    ((natCodec.serLen 5 > MAX_UDP_DATAGRAM_PAYLOAD_SIZE - SIGNED_MESSAGE_HEADER_LENGTH →
      ∃ e, UdpSignedSocket.send trivEd natCodec ⟨()⟩ 5 = Except.error e) ∧
    (natCodec.serLen 5 ≤ MAX_UDP_DATAGRAM_PAYLOAD_SIZE - SIGNED_MESSAGE_HEADER_LENGTH →
      ∃ out, UdpSignedSocket.send trivEd natCodec ⟨()⟩ 5 = Except.ok out ∧
        out.length = SIGNED_MESSAGE_HEADER_LENGTH + (natCodec.ser 5).length ∧
        out.length ≤ MAX_UDP_DATAGRAM_PAYLOAD_SIZE)) :=
  C4_mtu_safety trivEd natCodec ⟨()⟩ 5 (by rfl)

/-- C5: deserializing the byte buffer produced by serializing a SignedMessage
whose inner message round-trips through its own serialization succeeds and
yields the original value, all four fields preserved. The stored signature is
64 bytes, as every ed25519_dalek Signature is. -/
theorem C5_roundtrip {K SK T : Type} (E : Ed25519 K SK) (C : Codec T)
    (sm : SignedMessage K T)
    (hsig : sm.signature.length = 64)
    (hrt : C.deser (C.ser sm.message) = some (sm.message, [])) :
    SignedMessage.deserialize E C (SignedMessage.serialize E C sm) = some sm := by
  obtain ⟨pv, sig, pk, msg⟩ := sm
  simp only at hsig hrt
  have hser : SignedMessage.serialize E C ⟨pv, sig, pk, msg⟩
      = pv :: (sig ++ (E.keyBytes pk ++ C.ser msg)) := by
    simp [SignedMessage.serialize]
  rw [hser, SignedMessage.deserialize]
  simp only [splitFirstChunk_append SIGNATURE_LENGTH sig (E.keyBytes pk ++ C.ser msg)
      (by rw [hsig]; rfl),
    splitFirstChunk_append PUBLIC_KEY_LENGTH (E.keyBytes pk) (C.ser msg)
      (by rw [E.keyBytes_length]; rfl),
    E.keyFromBytes_keyBytes, hrt]

/-- Witness for C5 at a concrete SignedMessage value. -/
theorem C5_witness :
    SignedMessage.deserialize trivEd natCodec
      (SignedMessage.serialize trivEd natCodec
        ⟨PROTOCOL_VERSION, List.replicate 64 0, (), 5⟩)
      = some ⟨PROTOCOL_VERSION, List.replicate 64 0, (), 5⟩ :=
  C5_roundtrip trivEd natCodec ⟨PROTOCOL_VERSION, List.replicate 64 0, (), 5⟩
    (by simp) (by rfl)

/-- C6: recv on the signed UDP socket never surfaces an error: run over any
sequence of incoming datagrams it yields exactly the first datagram passing
all verification checks (with its sender address), skipping every failing
datagram, and yields nothing when no datagram ever passes. -/
theorem C6_recv_skips_failures {K SK T A : Type} (E : Ed25519 K SK) (C : Codec T)
    (datagrams : List (A × List Nat)) :
    UdpSignedSocket.recv E C datagrams
      = (datagrams.findSome? fun p => (receive_verified_one E C p.1 p.2 : Option (A × T))) := by
  induction datagrams with
  | nil => rfl
  | cons d rest ih =>
    obtain ⟨a, data⟩ := d
    rw [UdpSignedSocket.recv, List.findSome?]
    cases h : receive_verified_one E C a data (A := A) (T := T) <;> simp [h, ih]

/-- C7: the payload of the one unidirectional stream opened per outgoing QUIC
message is the serialized sender socket address (the advertised public
address) followed by the serialized message; and the receiving side yields
the address decoded from the payload, independently of the transport-observed
remote address of the connection. The hypotheses state that the address codec
decodes its own encoding as a prefix and the message codec round-trips. -/
theorem C7_quic_stream_payload {A T : Type} (CA : Codec A) (C : Codec T)
    (public_addr : A) (m : T) (rest : List Nat)
    (haddr : CA.deser (CA.ser public_addr ++ C.ser m) = some (public_addr, C.ser m))
    (hmsg : C.deser (C.ser m) = some (m, rest)) :
    handle_send CA C public_addr m = CA.ser public_addr ++ C.ser m ∧
    ∀ observed_addr : A,
      handle_incoming_session CA C observed_addr (handle_send CA C public_addr m)
        = some (public_addr, m) := by
  refine ⟨rfl, fun observed_addr => ?_⟩
  simp only [handle_incoming_session, handle_send, haddr, hmsg]

/-- Witness for C7 at concrete address and message values. -/
theorem C7_witness :
    handle_send natCodec natCodec 3 5 = natCodec.ser 3 ++ natCodec.ser 5 ∧
    ∀ observed_addr : Nat,
      handle_incoming_session natCodec natCodec observed_addr (handle_send natCodec natCodec 3 5)
        = some (3, 5) :=
  C7_quic_stream_payload natCodec natCodec 3 5 [] (by rfl) (by rfl)

/-- C8: serialized_len of a SignedMessage equals the exact number of bytes
serialize produces, namely 1 + 64 + 32 plus the inner serialized length,
whenever the inner message reports a length consistent with its serializer. -/
theorem C8_serialized_len_exact {K SK T : Type} (E : Ed25519 K SK) (C : Codec T)
    (sm : SignedMessage K T)
    (hsig : sm.signature.length = 64)
    (hlen : C.serLen sm.message = (C.ser sm.message).length) :
    SignedMessage.serialized_len C sm = (SignedMessage.serialize E C sm).length ∧
    SignedMessage.serialized_len C sm = 1 + 64 + 32 + C.serLen sm.message := by
  constructor
  · simp only [SignedMessage.serialized_len, SignedMessage.serialize,
      List.length_append, List.length_cons, List.length_nil,
      E.keyBytes_length, hsig, hlen, SIGNATURE_LENGTH, PUBLIC_KEY_LENGTH]
  · rfl

/-- Witness for C8 at a concrete SignedMessage value. -/
theorem C8_witness :
    SignedMessage.serialized_len natCodec
        (⟨PROTOCOL_VERSION, List.replicate 64 0, (), 5⟩ : SignedMessage Unit Nat)
      = (SignedMessage.serialize trivEd natCodec
        ⟨PROTOCOL_VERSION, List.replicate 64 0, (), 5⟩).length ∧
    SignedMessage.serialized_len natCodec
        (⟨PROTOCOL_VERSION, List.replicate 64 0, (), 5⟩ : SignedMessage Unit Nat)
      = 1 + 64 + 32 + natCodec.serLen 5 :=
  C8_serialized_len_exact trivEd natCodec ⟨PROTOCOL_VERSION, List.replicate 64 0, (), 5⟩
    (by simp) (by rfl)

/-- C9: the node identity built at startup carries generation_id equal to the
whole seconds since the Unix epoch at that moment, so a restart of the same
logical node at a strictly later wall-clock second carries a strictly larger
generation_id. -/
theorem C9_generation_is_start_epoch {A : Type} (nid1 nid2 : String)
    (addr1 addr2 : A) (t1 t2 : Nat) (h : t1 < t2) :
    (gossip_run_chitchat_id nid1 t1 addr1).generation_id = t1 ∧
    (gossip_run_chitchat_id nid2 t2 addr2).generation_id = t2 ∧
    (gossip_run_chitchat_id nid1 t1 addr1).generation_id
      < (gossip_run_chitchat_id nid2 t2 addr2).generation_id :=
  ⟨rfl, rfl, h⟩

/-- Witness for C9 at two concrete start times. -/
theorem C9_witness :
    (gossip_run_chitchat_id "server:a" 100 (0 : Nat)).generation_id = 100 ∧
    (gossip_run_chitchat_id "server:a" 101 (0 : Nat)).generation_id = 101 ∧
    (gossip_run_chitchat_id "server:a" 100 (0 : Nat)).generation_id
      < (gossip_run_chitchat_id "server:a" 101 (0 : Nat)).generation_id :=
  C9_generation_is_start_epoch "server:a" "server:a" 0 0 100 101 (by decide)

/-- C10: the QUIC outgoing loop never transmits a message addressed to the
configured public address: a queue entry whose destination equals the public
address is discarded before any connection is created, and every transmission
the loop performs has a destination different from the public address. -/
theorem C10_no_self_send {A T : Type} [DecidableEq A] (CA : Codec A) (C : Codec T)
    (public_addr : A) :
    (∀ m : T, outgoing_step CA C public_addr (public_addr, m) = none) ∧
    (∀ (queue : List (A × T)) (sent : A × List Nat),
      sent ∈ outgoing_run CA C public_addr queue → sent.1 ≠ public_addr) := by
  constructor
  · intro m
    simp [outgoing_step]
  · intro queue sent hmem
    rw [outgoing_run, List.mem_filterMap] at hmem
    obtain ⟨out, _, hstep⟩ := hmem
    rw [outgoing_step] at hstep
    split at hstep
    next => exact absurd hstep (by simp)
    next hne =>
      simp only [Option.some.injEq] at hstep
      rw [← hstep]
      exact hne

/-- Witness for C10 at a concrete queue containing one forwarded entry. -/
theorem C10_witness :
    outgoing_step natCodec natCodec 0 ((0 : Nat), (7 : Nat)) = none ∧
    ((1 : Nat), handle_send natCodec natCodec 0 5).1 ≠ 0 :=
  ⟨(C10_no_self_send natCodec natCodec 0).1 7,
    (C10_no_self_send natCodec natCodec 0).2 [(1, 5)] (1, handle_send natCodec natCodec 0 5)
      (by simp [outgoing_run, outgoing_step])⟩

end Igniter
